import Mathlib

/-!
Shallow embedding of the voice-pruner enforcement engine.

The repository contains several iterations of the same bot.  The entities
below are translated from:
  * `src/main.rs`            — `BotRef::monitored`, `BotRef::permitted`, `BotRef::remove`
  * `src/search.rs`          — `Search::{is_permitted, channel, guild, user}`
  * `src/prune.rs`           — `prune::{is_permitted, channel, guild, user}`
  * `src/events.rs`          — `process` (cache update + change gate + scope)
  * `src/events/permission.rs` — `Permission::{is_disabled, act}`, `Mode`

Rust panics (`expect`, `unwrap`) are modelled by `Option`: `none` is a panic.
Fallible searches return `Except Search.Error`.  Machine integers carry no
overflow here (ids and counts are small), so `Nat` is used directly.
-/

abbrev UserId := Nat
abbrev ChannelId := Nat
abbrev GuildId := Nat
abbrev RoleId := Nat

/-- Permission bitmasks (`twilight_model::guild::Permissions`), as natural
numbers with bitwise operations. -/
abbrev Permissions := Nat

namespace Permissions

/-- `Permissions::CONNECT` (bit 20). -/
def CONNECT : Permissions := 2 ^ 20

/-- `Permissions::MOVE_MEMBERS` (bit 24). -/
def MOVE_MEMBERS : Permissions := 2 ^ 24

/-- `bitflags::contains`: every bit of `q` is set in `p`. -/
def contains (p q : Permissions) : Bool := p &&& q == q

end Permissions

/-- The channel kinds relevant to the engine
(`twilight_model::channel::ChannelType`). -/
inductive ChannelType
| guildText
| guildVoice
| guildStageVoice
| other
deriving DecidableEq, Repr

/-- Modelled from the spec: the constant `MONITORED_CHANNEL_TYPES` is referenced
by `src/search.rs` (line 78) and `src/commands/is_monitored.rs` but its defining
crate root is not under `src/`; the spec (§3, MonitoredChannel) defines the
eligible kinds as voice and stage-voice. -/
def MONITORED_CHANNEL_TYPES (k : ChannelType) : Bool :=
k == ChannelType.guildVoice || k == ChannelType.guildStageVoice

/-- Kind discriminant of a permission overwrite
(`PermissionOverwriteType`: role or member). -/
inductive OverwriteKind
| role
| member
deriving DecidableEq, Repr

/-- One entry of a channel's `permission_overwrites` list. -/
structure PermissionOverwrite where
kind : OverwriteKind
id : Nat
allow : Permissions
deny : Permissions
deriving DecidableEq, Repr

/-- A guild channel as stored in the in-memory cache: its kind and overwrite
list (the only fields the engine reads). -/
structure CachedChannel where
kind : ChannelType
permission_overwrites : List PermissionOverwrite
deriving DecidableEq, Repr

/-- A cached member: the set of held role ids (`member.roles`). -/
structure CachedMember where
roles : List RoleId
deriving DecidableEq, Repr

/-- A cached role: name and permission bitmask. -/
structure CachedRole where
name : String
permissions : Permissions
deriving DecidableEq, Repr

/-- `twilight_model::voice::VoiceState` as read by `main.rs` and `search.rs`:
optional current channel (absent means disconnected) and optional member data. -/
structure VoiceState where
user_id : UserId
channel_id : Option ChannelId
member : Option CachedMember
deriving DecidableEq, Repr

/-- `twilight_cache_inmemory::model::CachedVoiceState` as read by `prune.rs`:
the newer cached type guarantees a present channel id. -/
structure CachedVoiceState where
user_id : UserId
channel_id : ChannelId
deriving DecidableEq, Repr

/-- The read interface of the external in-memory cache consumed by the engine.
`permissionsInChannel` is the external permission oracle
(`cache.permissions().in_channel(user, channel)`): `none` models a failed
lookup.  The two voice-state views correspond to the two cache versions the
iterations compile against. -/
structure Cache where
guildChannel : ChannelId → Option CachedChannel
voice_channel_states : ChannelId → Option (List VoiceState)
voice_state : UserId → GuildId → Option VoiceState
member : GuildId → UserId → Option CachedMember
role : RoleId → Option CachedRole
guildChannels : GuildId → Option (List ChannelId)
cachedVoiceChannelStates : ChannelId → Option (List CachedVoiceState)
cachedVoiceState : UserId → GuildId → Option CachedVoiceState
permissionsInChannel : UserId → ChannelId → Option Permissions

/-- `InMemoryCacheExt::voice_channel`: the cached channel, kept only when its
kind is the voice variant. -/
def Cache.voice_channel (cache : Cache) (channel_id : ChannelId) :
    Option CachedChannel :=
match cache.guildChannel channel_id with
| some c => if c.kind = ChannelType.guildVoice then some c else none
| none => none

/-- The process-wide bot handle: its own user id plus the cache. -/
structure BotRef where
id : UserId
cache : Cache

/-- `BotRef::monitored` (`src/main.rs` lines 274-282): true when the bot's
effective permission in the channel contains `MOVE_MEMBERS`; a failed oracle
lookup yields `false` (`unwrap_or_default`). -/
def BotRef.monitored (bot : BotRef) (channel_id : ChannelId) : Bool :=
((bot.cache.permissionsInChannel bot.id channel_id).map
  (fun p => p.contains Permissions.MOVE_MEMBERS)).getD false

/-- `BotRef::is_monitored`: the later iterations' name for `BotRef::monitored`
(called from `src/search.rs` line 83 and `src/prune.rs` line 29). -/
def BotRef.is_monitored (bot : BotRef) (channel_id : ChannelId) : Bool :=
BotRef.monitored bot channel_id

/-- `BotRef::permitted` (`src/main.rs` lines 284-300): a disconnected state
(absent channel id) and a failed oracle lookup both default to `true`. -/
def BotRef.permitted (bot : BotRef) (state : VoiceState) : Bool :=
match state.channel_id with
| none => true
| some channel_id =>
  ((bot.cache.permissionsInChannel state.user_id channel_id).map
    (fun p => p.contains Permissions.CONNECT)).getD true

deriving instance DecidableEq for Except

/-- `search::Error` (`src/search.rs` lines 16-21). -/
inductive Search.Error
| Internal (msg : String)
| NotAVoiceChannel
| NotInVoice
| Unmonitored
deriving DecidableEq, Repr

/-- `Search` (`src/search.rs` lines 44-48). -/
structure Search where
bot : BotRef
guild_id : GuildId

/-- `Search::is_permitted` (`src/search.rs` lines 51-61).  Both `expect`s
(absent channel id, failed oracle lookup) are panics, hence `none`. -/
def Search.is_permitted (s : Search) (state : VoiceState) : Option Bool :=
match state.channel_id with
| none => none
| some channel_id =>
  (s.bot.cache.permissionsInChannel state.user_id channel_id).map
    (fun p => p.contains Permissions.CONNECT)

/-- The role filter applied by `Search::channel` (`src/search.rs` lines
94-101): with a role filter and member data present, keep holders of the role
or pass everyone when the filter is the guild's default role (`guild_id.cast()`);
without member data (or without a filter) nothing is filtered out. -/
def Search.roleFilter (s : Search) (role_id : Option RoleId)
    (state : VoiceState) : Bool :=
match role_id, state.member with
| some rid, some mem => rid == s.guild_id || mem.roles.contains rid
| _, _ => true

/-- The `filter_map` loop of `Search::channel` (`src/search.rs` line 102):
collect the user ids of states that fail `is_permitted`, propagating the panic
of any single evaluation. -/
def Search.collectUnpermitted (s : Search) :
    List VoiceState → Option (List UserId)
| [] => some []
| state :: rest =>
  match s.is_permitted state with
  | none => none
  | some b =>
    match s.collectUnpermitted rest with
    | none => none
    | some us => some (if b then us else state.user_id :: us)

/-- `Search::channel` (`src/search.rs` lines 66-104): kind gate, monitored
gate, then the role-filtered scan of the channel's current voice states. -/
def Search.channel (s : Search) (channel_id : ChannelId)
    (role_id : Option RoleId) :
    Option (Except Search.Error (List UserId)) :=
match s.bot.cache.guildChannel channel_id with
| none => some (Except.error (Search.Error.Internal "channel not in cache"))
| some ch =>
  if !MONITORED_CHANNEL_TYPES ch.kind then
    some (Except.error Search.Error.NotAVoiceChannel)
  else if !s.bot.is_monitored channel_id then
    some (Except.error Search.Error.Unmonitored)
  else
    let states := (s.bot.cache.voice_channel_states channel_id).getD []
    (s.collectUnpermitted (states.filter (s.roleFilter role_id))).map
      Except.ok

/-- The `filter_map(.ok()).flatten()` loop of `Search::guild` (`src/search.rs`
lines 116-120): concatenate the successful per-channel results, dropping
errored channels, propagating any panic. -/
def Search.collectChannels (s : Search) (role_id : Option RoleId) :
    List ChannelId → Option (List UserId)
| [] => some []
| c :: rest =>
  match s.channel c role_id with
  | none => none
  | some r =>
    match s.collectChannels role_id rest with
    | none => none
    | some us =>
      some ((match r with | Except.ok u => u | Except.error _ => []) ++ us)

/-- `Search::guild` (`src/search.rs` lines 109-121). -/
def Search.guild (s : Search) (role_id : Option RoleId) :
    Option (Except Search.Error (List UserId)) :=
match s.bot.cache.guildChannels s.guild_id with
| none => some (Except.error (Search.Error.Internal "guild not in cache"))
| some channels => (s.collectChannels role_id channels).map Except.ok

/-- `Search::user` (`src/search.rs` lines 124-140): no-voice-state error,
monitored gate on the state's channel (the `expect` on its channel id is a
panic), then the permission check. -/
def Search.user (s : Search) (user_id : UserId) :
    Option (Except Search.Error Bool) :=
match s.bot.cache.voice_state user_id s.guild_id with
| none => some (Except.error Search.Error.NotInVoice)
| some state =>
  match state.channel_id with
  | none => none
  | some channel_id =>
    if !s.bot.is_monitored channel_id then
      some (Except.error Search.Error.Unmonitored)
    else
      (s.is_permitted state).map (fun b => Except.ok (!b))

/-- The joined result of one removal batch: every issued call paired with its
outcome, plus the tally of successes. -/
structure RemovalBatch where
calls : List (UserId × Bool)
successCount : Nat
deriving DecidableEq, Repr

/-- Modelled from the spec: the count-returning `Bot::remove` of the newest
iteration is not under `src/` (its callers `src/prune.rs` lines 44, 62 and
`src/command/prune.rs` lines 55, 63 sum and format the returned count); the
iteration of `src/main.rs` lines 312-328 shows the batch structure (one
independent call per candidate, each failure logged, no retry, no abort) but
returns no count.  §4.5 of the spec: one removal call per candidate, joined,
failures logged and non-fatal, returning the number of successful calls.  The
external REST outcome of each call is abstracted as the oracle `outcome`. -/
def BotRef.remove (users : List UserId) (outcome : UserId → Bool) :
    RemovalBatch :=
match users with
| [] => { calls := [], successCount := 0 }
| u :: rest =>
  let r := BotRef.remove rest outcome
  { calls := (u, outcome u) :: r.calls,
    successCount := (if outcome u then 1 else 0) + r.successCount }

namespace prune

/-- `prune::is_permitted` (`src/prune.rs` lines 15-21); the `expect` on the
oracle result is a panic. -/
def is_permitted (cache : Cache) (state : CachedVoiceState) : Option Bool :=
(cache.permissionsInChannel state.user_id state.channel_id).map
  (fun p => p.contains Permissions.CONNECT)

/-- The collection loop of `prune::channel` (`src/prune.rs` lines 35-39):
users whose state fails `is_permitted` and passes the `kick` closure. -/
def collectUsers (cache : Cache) (kick : CachedVoiceState → Bool) :
    List CachedVoiceState → Option (List UserId)
| [] => some []
| state :: rest =>
  match is_permitted cache state with
  | none => none
  | some b =>
    match collectUsers cache kick rest with
    | none => none
    | some us =>
      some (if !b && kick state then state.user_id :: us else us)

/-- The candidate set assembled by `prune::channel` (`src/prune.rs` lines
28-42) before it calls `BOT.remove`: empty when the channel is unmonitored or
has no cached voice states.  Note there is no channel-kind gate here. -/
def channelUsers (bot : BotRef) (channel : ChannelId)
    (kick : CachedVoiceState → Bool) : Option (List UserId) :=
if bot.is_monitored channel then
  match bot.cache.cachedVoiceChannelStates channel with
  | none => some []
  | some states => collectUsers bot.cache kick states
else
  some []

/-- `prune::channel` (`src/prune.rs` lines 24-45): search then remove,
returning the success count. -/
def channel (bot : BotRef) (chan : ChannelId)
    (kick : CachedVoiceState → Bool) (outcome : UserId → Bool) :
    Option Nat :=
(channelUsers bot chan kick).map
  (fun users => (BotRef.remove users outcome).successCount)

/-- `prune::user` (`src/prune.rs` lines 60-64): the removal calls issued for a
member-scoped trigger.  The user is removed when they have a voice state in the
guild and fail the permission check — with no monitored-channel gate. -/
def user (bot : BotRef) (guild : GuildId) (user_id : UserId) :
    Option (List UserId) :=
match bot.cache.cachedVoiceState user_id guild with
| none => some []
| some state =>
  match is_permitted bot.cache state with
  | none => none
  | some b => some (if b then [] else [user_id])

end prune

/-- `Mode` (`src/events/permission.rs` lines 10-15). -/
inductive Mode
| Channel (c : ChannelId)
| Member (user_id : UserId)
| Role (role_id : Option RoleId)
deriving DecidableEq, Repr

/-- `Permission` (`src/events/permission.rs` lines 17-21). -/
structure Permission where
bot : BotRef
guild_id : GuildId
mode : Mode

/-- `Permission::is_disabled` (`src/events/permission.rs` lines 32-47): true
when the bot's cached member holds a role named `no-auto-prune`.  The `expect`
on the bot's member record is a panic (`none`), not a default. -/
def Permission.is_disabled (p : Permission) : Option Bool :=
match p.bot.cache.member p.guild_id p.bot.id with
| none => none
| some mem =>
  some (mem.roles.any (fun role_id =>
    ((p.bot.cache.role role_id).map
      (fun role => role.name == "no-auto-prune")).getD false))

/-- `Permission::act` (`src/events/permission.rs` lines 49-74), as the list of
removal calls it issues: the opt-out gate, then the mode-directed search; a
search error means no removals (`if let Ok` / `unwrap_or_default`). -/
def Permission.act (p : Permission) : Option (List UserId) :=
match p.is_disabled with
| none => none
| some true => some []
| some false =>
  match p.mode with
  | Mode.Channel c =>
    match Search.channel ⟨p.bot, p.guild_id⟩ c none with
    | none => none
    | some (Except.ok users) => some users
    | some (Except.error _) => some []
  | Mode.Member user_id =>
    match Search.user ⟨p.bot, p.guild_id⟩ user_id with
    | none => none
    | some (Except.ok b) => some (if b then [user_id] else [])
    | some (Except.error _) => some []
  | Mode.Role role_id =>
    match Search.guild ⟨p.bot, p.guild_id⟩ role_id with
    | none => none
    | some (Except.ok users) => some users
    | some (Except.error _) => some []

/-- The guild voice channel carried by a `ChannelUpdate` event
(`twilight_model::channel::VoiceChannel`): the fields `process` reads. -/
structure UpdatedChannel where
id : ChannelId
kind : ChannelType
guild_id : Option GuildId
permission_overwrites : List PermissionOverwrite
deriving DecidableEq, Repr

/-- The role carried by a `RoleUpdate` event. -/
structure UpdatedRole where
id : RoleId
name : String
permissions : Permissions
deriving DecidableEq, Repr

/-- The gateway events `process` (`src/events.rs`) dispatches on.  `Other`
stands for every arm that falls into the final `_ => ()`. -/
inductive Event
| ChannelUpdate (vc : UpdatedChannel)
| MemberUpdate (guild_id : GuildId) (user_id : UserId) (roles : List RoleId)
| RoleDelete (guild_id : GuildId) (role_id : RoleId)
| RoleUpdate (guild_id : GuildId) (role : UpdatedRole)
| Other
deriving Repr

/-- `bot.cache.update(&event)` (`src/events.rs` line 18), restricted to the
entities the engine reads: a guild channel update replaces the cached channel
(twilight only caches it when the event carries a guild id), a member update
rewrites the cached member's role set, a role update replaces the cached role,
a role deletion evicts it. -/
def Cache.update (cache : Cache) (event : Event) : Cache :=
match event with
| Event.ChannelUpdate vc =>
  match vc.guild_id with
  | some _ =>
    { cache with guildChannel := fun cid =>
        if cid = vc.id then some ⟨vc.kind, vc.permission_overwrites⟩
        else cache.guildChannel cid }
  | none => cache
| Event.MemberUpdate g u roles =>
  { cache with member := fun g1 u1 =>
      if g1 = g ∧ u1 = u then
        (cache.member g1 u1).map (fun _ => { roles := roles })
      else cache.member g1 u1 }
| Event.RoleDelete _ rid =>
  { cache with role := fun r => if r = rid then none else cache.role r }
| Event.RoleUpdate _ r =>
  { cache with role := fun rid =>
      if rid = r.id then some { name := r.name, permissions := r.permissions }
      else cache.role rid }
| Event.Other => cache

/-- The change-gate and scope decision of `process` (`src/events.rs` lines
17-53): which `Permission::act` invocation (guild id and `Mode`) the event
leads to, `none` when the event is gated away.  As in the source, the cache
update of line 18 runs before the match, so the two guards (channel overwrite
comparison, role bitmask comparison) read the already-updated cache. -/
def processScope (cache : Cache) (event : Event) : Option (GuildId × Mode) :=
let cache1 := cache.update event
match event with
| Event.ChannelUpdate vc =>
  if vc.kind = ChannelType.guildVoice ∧
     (cache1.voice_channel vc.id).map
       (fun c => c.permission_overwrites) ≠ some vc.permission_overwrites
  then
    match vc.guild_id with
    | some g => some (g, Mode.Channel vc.id)
    | none => none
  else none
| Event.MemberUpdate g u _ => some (g, Mode.Member u)
| Event.RoleDelete g _ => some (g, Mode.Role none)
| Event.RoleUpdate g r =>
  if (cache1.role r.id).map (fun x => x.permissions) ≠ some r.permissions
  then some (g, Mode.Role (some r.id))
  else none
| Event.Other => none

/-- `process` (`src/events.rs` lines 17-53) end to end, as the removal calls
the event leads to: cache update first, then the gated dispatch into
`Permission::act` against the updated cache. -/
def process (bot : BotRef) (event : Event) : Option (List UserId) :=
let bot1 : BotRef := { bot with cache := bot.cache.update event }
match processScope bot.cache event with
| none => some []
| some (g, mode) =>
  Permission.act { bot := bot1, guild_id := g, mode := mode }

/-- Well-formedness of the external cache's voice-state views, asserted by the
source's own `expect` messages ("included since it's from cache", "always set
in cache"): a state listed under a channel is connected to that channel, and a
state looked up by user id belongs to that user. -/
def Cache.statesWellFormed (cache : Cache) : Prop :=
(∀ c st, st ∈ (cache.voice_channel_states c).getD [] → st.channel_id = some c)
∧ (∀ u g st, cache.voice_state u g = some st → st.user_id = u)

/-- Example: user 5 holds role 201, connected to channel 10. -/
def st5 : VoiceState := ⟨5, some 10, some ⟨[201]⟩⟩

/-- Example: user 6, no roles, connected to channel 10. -/
def st6 : VoiceState := ⟨6, some 10, some ⟨[]⟩⟩

/-- Example: user 8, member data absent, connected to channel 10. -/
def st8 : VoiceState := ⟨8, some 10, none⟩

/-- Example: user 9, no roles, connected to channel 10. -/
def st9 : VoiceState := ⟨9, some 10, some ⟨[]⟩⟩

/-- Example: user 7, member data absent, connected to channel 12. -/
def st7 : VoiceState := ⟨7, some 12, none⟩

/-- Example permission oracle.  The bot (user 1) has `MOVE_MEMBERS` in
channels 10 and 11 but not 12; user 6 may connect to channel 10; users 5, 8, 9
are denied in channel 10 and user 7 is denied in channel 12. -/
def exOracle (u : UserId) (c : ChannelId) : Option Permissions :=
if u = 1 ∧ c = 10 then some Permissions.MOVE_MEMBERS
else if u = 1 ∧ c = 11 then some Permissions.MOVE_MEMBERS
else if u = 1 ∧ c = 12 then some 0
else if u = 5 ∧ c = 10 then some 0
else if u = 6 ∧ c = 10 then some Permissions.CONNECT
else if u = 8 ∧ c = 10 then some 0
else if u = 9 ∧ c = 10 then some 0
else if u = 7 ∧ c = 12 then some 0
else none

/-- Example cache for guild 100: a monitored voice channel 10, a text channel
11, an unmonitored voice channel 12, the bot's member record (no opt-out
role), roles 200 (`no-auto-prune`) and 201. -/
def exCache : Cache where
guildChannel := fun c =>
  if c = 10 then some ⟨ChannelType.guildVoice, []⟩
  else if c = 11 then some ⟨ChannelType.guildText, []⟩
  else if c = 12 then some ⟨ChannelType.guildVoice, []⟩
  else none
voice_channel_states := fun c =>
  if c = 10 then some [st5, st6, st8, st9]
  else if c = 12 then some [st7]
  else none
voice_state := fun u g =>
  if u = 5 ∧ g = 100 then some st5
  else if u = 7 ∧ g = 100 then some st7
  else none
member := fun g u => if g = 100 ∧ u = 1 then some ⟨[]⟩ else none
role := fun r =>
  if r = 200 then some ⟨"no-auto-prune", 0⟩
  else if r = 201 then some ⟨"members", 0⟩
  else none
guildChannels := fun g => if g = 100 then some [10, 11, 12] else none
cachedVoiceChannelStates := fun c =>
  if c = 10 then some [⟨5, 10⟩, ⟨6, 10⟩, ⟨8, 10⟩, ⟨9, 10⟩]
  else if c = 12 then some [⟨7, 12⟩]
  else none
cachedVoiceState := fun u g =>
  if u = 5 ∧ g = 100 then some ⟨5, 10⟩
  else if u = 7 ∧ g = 100 then some ⟨7, 12⟩
  else none
permissionsInChannel := exOracle

/-- Example bot handle over `exCache`. -/
def exBot : BotRef := ⟨1, exCache⟩

/-- Example search over guild 100. -/
def exSearch : Search := ⟨exBot, 100⟩

/-- Variant of `exCache` whose member table is empty: the bot's own member
record is absent (out-of-order initial sync). -/
def exCacheNoBotMember : Cache := { exCache with member := fun _ _ => none }

/-- Bot handle over the member-less cache. -/
def exBotNoMember : BotRef := ⟨1, exCacheNoBotMember⟩

/-- Helper: membership in a successful `collectUnpermitted` run is exactly a
source state failing the permission check. -/
theorem Search.collectUnpermitted_mem (s : Search) :
    ∀ (states : List VoiceState) (us : List UserId),
    s.collectUnpermitted states = some us →
    ∀ u, u ∈ us ↔
      ∃ st, st ∈ states ∧ st.user_id = u ∧ s.is_permitted st = some false := by
intro states
induction states with
| nil =>
  intro us h u
  simp only [Search.collectUnpermitted, Option.some.injEq] at h
  subst h
  simp
| cons st rest ih =>
  intro us h u
  simp only [Search.collectUnpermitted] at h
  cases hp : s.is_permitted st with
  | none => rw [hp] at h; cases h
  | some b =>
    rw [hp] at h
    cases hr : s.collectUnpermitted rest with
    | none => rw [hr] at h; cases h
    | some us0 =>
      rw [hr] at h
      simp only [Option.some.injEq] at h
      subst h
      cases b with
      | true =>
        show u ∈ us0 ↔
          ∃ st2, st2 ∈ st :: rest ∧ st2.user_id = u ∧
            s.is_permitted st2 = some false
        rw [ih us0 hr u]
        constructor
        · rintro ⟨st2, hmem, rfl, hp2⟩
          exact ⟨st2, List.mem_cons_of_mem _ hmem, rfl, hp2⟩
        · rintro ⟨st2, hmem, rfl, hp2⟩
          rcases List.mem_cons.mp hmem with rfl | hmem2
          · rw [hp] at hp2; cases hp2
          · exact ⟨st2, hmem2, rfl, hp2⟩
      | false =>
        show u ∈ st.user_id :: us0 ↔
          ∃ st2, st2 ∈ st :: rest ∧ st2.user_id = u ∧
            s.is_permitted st2 = some false
        rw [List.mem_cons, ih us0 hr u]
        constructor
        · rintro (rfl | ⟨st2, hmem, rfl, hp2⟩)
          · exact ⟨st, List.mem_cons_self _ _, rfl, hp⟩
          · exact ⟨st2, List.mem_cons_of_mem _ hmem, rfl, hp2⟩
        · rintro ⟨st2, hmem, rfl, hp2⟩
          rcases List.mem_cons.mp hmem with rfl | hmem2
          · exact Or.inl rfl
          · exact Or.inr ⟨st2, hmem2, rfl, hp2⟩

/-- Helper: a failing permission verdict is exactly an oracle answer without
the `CONNECT` bit at the state's channel. -/
theorem Search.is_permitted_false_iff (s : Search) (st : VoiceState) :
    s.is_permitted st = some false ↔
    ∃ cid, st.channel_id = some cid ∧
      ∃ p, s.bot.cache.permissionsInChannel st.user_id cid = some p ∧
        p.contains Permissions.CONNECT = false := by
cases hch : st.channel_id with
| none => simp [Search.is_permitted, hch]
| some cid =>
  simp [Search.is_permitted, hch, Option.map_eq_some']

/-- Helper: a successful `Search::channel` run presupposes the cached channel,
the voice-capable kind, the monitored bit, and is the collection over the
role-filtered states. -/
theorem Search.channel_ok_spec (s : Search) (c : ChannelId)
    (rid : Option RoleId) (us : List UserId)
    (h : s.channel c rid = some (Except.ok us)) :
    ∃ ch, s.bot.cache.guildChannel c = some ch ∧
      MONITORED_CHANNEL_TYPES ch.kind = true ∧
      s.bot.is_monitored c = true ∧
      s.collectUnpermitted
        (((s.bot.cache.voice_channel_states c).getD []).filter
          (s.roleFilter rid)) = some us := by
cases hg : s.bot.cache.guildChannel c with
| none => simp [Search.channel, hg] at h
| some ch =>
  cases hk : MONITORED_CHANNEL_TYPES ch.kind with
  | false => simp [Search.channel, hg, hk] at h
  | true =>
    cases hm : s.bot.is_monitored c with
    | false => simp [Search.channel, hg, hk, hm] at h
    | true =>
      simp only [Search.channel, hg, hk, hm, Bool.not_true, Bool.false_eq_true,
        if_false] at h
      rw [Option.map_eq_some'] at h
      rcases h with ⟨a, ha, hae⟩
      injection hae with h2
      subst h2
      exact ⟨ch, rfl, hk, rfl, ha⟩

/-- Helper: membership in a successful `collectChannels` run comes from some
channel's successful search. -/
theorem Search.collectChannels_mem (s : Search) (rid : Option RoleId) :
    ∀ (channels : List ChannelId) (us : List UserId),
    s.collectChannels rid channels = some us →
    ∀ u, u ∈ us ↔
      ∃ c, c ∈ channels ∧ ∃ usc,
        s.channel c rid = some (Except.ok usc) ∧ u ∈ usc := by
intro channels
induction channels with
| nil =>
  intro us h u
  simp only [Search.collectChannels, Option.some.injEq] at h
  subst h
  simp
| cons c rest ih =>
  intro us h u
  simp only [Search.collectChannels] at h
  cases hc : s.channel c rid with
  | none => rw [hc] at h; cases h
  | some r =>
    rw [hc] at h
    cases hr : s.collectChannels rid rest with
    | none => rw [hr] at h; cases h
    | some us0 =>
      rw [hr] at h
      simp only [Option.some.injEq] at h
      subst h
      rw [List.mem_append, ih us0 hr u]
      constructor
      · rintro (hu | ⟨c2, hmem, usc, hcu, hu⟩)
        · cases r with
          | ok usc => exact ⟨c, List.mem_cons_self _ _, usc, hc, hu⟩
          | error e => exact absurd hu (List.not_mem_nil u)
        · exact ⟨c2, List.mem_cons_of_mem _ hmem, usc, hcu, hu⟩
      · rintro ⟨c2, hmem, usc, hcu, hu⟩
        rcases List.mem_cons.mp hmem with rfl | hmem2
        · rw [hc] at hcu
          injection hcu with h2
          subst h2
          exact Or.inl hu
        · exact Or.inr ⟨c2, hmem2, usc, hcu, hu⟩

/-- Helper: membership in a successful `prune::collectUsers` run is exactly a
source state failing the check and passing the `kick` closure. -/
theorem prune.collectUsers_mem (cache : Cache) (kick : CachedVoiceState → Bool) :
    ∀ (states : List CachedVoiceState) (us : List UserId),
    prune.collectUsers cache kick states = some us →
    ∀ u, u ∈ us ↔
      ∃ st, st ∈ states ∧ st.user_id = u ∧ kick st = true ∧
        prune.is_permitted cache st = some false := by
intro states
induction states with
| nil =>
  intro us h u
  simp only [prune.collectUsers, Option.some.injEq] at h
  subst h
  simp
| cons st rest ih =>
  intro us h u
  simp only [prune.collectUsers] at h
  cases hp : prune.is_permitted cache st with
  | none => rw [hp] at h; cases h
  | some b =>
    rw [hp] at h
    cases hr : prune.collectUsers cache kick rest with
    | none => rw [hr] at h; cases h
    | some us0 =>
      rw [hr] at h
      simp only [Option.some.injEq] at h
      subst h
      by_cases hcond : (!b && kick st) = true
      · rw [if_pos hcond, List.mem_cons, ih us0 hr u]
        simp only [Bool.and_eq_true, Bool.not_eq_true'] at hcond
        obtain ⟨hb, hk⟩ := hcond
        subst hb
        constructor
        · rintro (rfl | ⟨st2, hmem, rfl, hk2, hp2⟩)
          · exact ⟨st, List.mem_cons_self _ _, rfl, hk, hp⟩
          · exact ⟨st2, List.mem_cons_of_mem _ hmem, rfl, hk2, hp2⟩
        · rintro ⟨st2, hmem, rfl, hk2, hp2⟩
          rcases List.mem_cons.mp hmem with rfl | hmem2
          · exact Or.inl rfl
          · exact Or.inr ⟨st2, hmem2, rfl, hk2, hp2⟩
      · rw [if_neg hcond, ih us0 hr u]
        constructor
        · rintro ⟨st2, hmem, rfl, hk2, hp2⟩
          exact ⟨st2, List.mem_cons_of_mem _ hmem, rfl, hk2, hp2⟩
        · rintro ⟨st2, hmem, rfl, hk2, hp2⟩
          rcases List.mem_cons.mp hmem with rfl | hmem2
          · rw [hp] at hp2
            injection hp2 with hb2
            subst hb2
            simp [hk2] at hcond
          · exact ⟨st2, hmem2, rfl, hk2, hp2⟩

/-- Helper: a `ChannelUpdate` can never pass the change gate, because the guard
compares the already-updated cache entry with the event's own value. -/
theorem processScope_channelUpdate_none (cache : Cache) (vc : UpdatedChannel) :
    processScope cache (Event.ChannelUpdate vc) = none := by
cases hgid : vc.guild_id with
| none => simp [processScope, Cache.update, hgid]
| some g2 =>
  by_cases hkind : vc.kind = ChannelType.guildVoice
  · simp [processScope, Cache.update, Cache.voice_channel, hgid, hkind]
  · simp [processScope, hgid, hkind]

/-- Helper: a `RoleUpdate` can never pass the change gate, for the same
reason: the cached bitmask has already been overwritten when it is compared. -/
theorem processScope_roleUpdate_none (cache : Cache) (g : GuildId)
    (r : UpdatedRole) :
    processScope cache (Event.RoleUpdate g r) = none := by
simp [processScope, Cache.update]

/-- Helper: a `RoleDelete` is never gated and resolves to the whole-guild
scope. -/
theorem processScope_roleDelete (cache : Cache) (g : GuildId) (rid : RoleId) :
    processScope cache (Event.RoleDelete g rid) = some (g, Mode.Role none) := by
simp [processScope]

/-- Helper: the example cache satisfies the voice-state well-formedness the
source's `expect` calls assume. -/
theorem exCache_wf : Cache.statesWellFormed exCache := by
refine ⟨?_, ?_⟩
· intro c st hst
  by_cases h10 : c = 10
  · subst h10
    simp only [exCache] at hst
    norm_num at hst
    rcases hst with rfl | rfl | rfl | rfl <;> rfl
  · by_cases h12 : c = 12
    · subst h12
      simp only [exCache] at hst
      norm_num at hst
      subst hst
      rfl
    · simp only [exCache] at hst
      rw [if_neg h10, if_neg h12] at hst
      simp at hst
· intro u g st h
  simp only [exCache] at h
  by_cases h5 : u = 5 ∧ g = 100
  · rw [if_pos h5] at h
    injection h with h2
    subst h2
    rcases h5 with ⟨rfl, -⟩
    rfl
  · rw [if_neg h5] at h
    by_cases h7 : u = 7 ∧ g = 100
    · rw [if_pos h7] at h
      injection h with h2
      subst h2
      rcases h7 with ⟨rfl, -⟩
      rfl
    · rw [if_neg h7] at h
      cases h

/-- Helper: every user returned by a successful `Search::channel` run sits (by
cache well-formedness) in that channel, which passed both gates, and is denied
`CONNECT` there by the oracle. -/
theorem channel_target_spec (s : Search) (c : ChannelId) (rid : Option RoleId)
    (us : List UserId) (u : UserId)
    (hwf : ∀ c2 st, st ∈ (s.bot.cache.voice_channel_states c2).getD [] →
      st.channel_id = some c2)
    (h : s.channel c rid = some (Except.ok us)) (hu : u ∈ us) :
    ∃ ch, s.bot.cache.guildChannel c = some ch ∧
      MONITORED_CHANNEL_TYPES ch.kind = true ∧
      s.bot.is_monitored c = true ∧
      ∃ p, s.bot.cache.permissionsInChannel u c = some p ∧
        p.contains Permissions.CONNECT = false := by
obtain ⟨ch, hch, hk, hm, hcol⟩ := Search.channel_ok_spec s c rid us h
rcases (s.collectUnpermitted_mem _ us hcol u).mp hu with ⟨st, hmem, hid, hperm⟩
rw [List.mem_filter] at hmem
obtain ⟨cid, hcid, p, hperm2, hc2⟩ := (s.is_permitted_false_iff st).mp hperm
have hst : st.channel_id = some c := hwf c st hmem.1
rw [hst] at hcid
injection hcid with h4
subst h4
subst hid
exact ⟨ch, hch, hk, hm, p, hperm2, hc2⟩

/-- Helper: a positive `Search::user` verdict presupposes a voice state in a
monitored channel where the oracle denies the user `CONNECT`. -/
theorem user_target_spec (s : Search) (uid : UserId)
    (hwf : ∀ u2 g st, s.bot.cache.voice_state u2 g = some st →
      st.user_id = u2)
    (h : s.user uid = some (Except.ok true)) :
    ∃ cid, s.bot.is_monitored cid = true ∧
      ∃ perm, s.bot.cache.permissionsInChannel uid cid = some perm ∧
        perm.contains Permissions.CONNECT = false := by
unfold Search.user at h
split at h
· simp at h
· rename_i st hvs
  split at h
  · cases h
  · rename_i cid hcid
    cases hm : s.bot.is_monitored cid with
    | false => simp [hm] at h
    | true =>
      simp only [hm, Bool.not_true, Bool.false_eq_true, if_false] at h
      rw [Option.map_eq_some'] at h
      rcases h with ⟨b, hb, he⟩
      injection he with he2
      have hbf : b = false := by cases b <;> simp_all
      subst hbf
      obtain ⟨cid2, hcid2, perm, hperm, hc⟩ := (s.is_permitted_false_iff st).mp hb
      rw [hcid] at hcid2
      injection hcid2 with h3
      subst h3
      have huid : st.user_id = uid := hwf uid s.guild_id st hvs
      rw [huid] at hperm
      exact ⟨cid, hm, perm, hperm, hc⟩

/-- Helper: every removal `Permission::act` issues targets a user the oracle
denies `CONNECT` in a channel the bot holds `MOVE_MEMBERS` in. -/
theorem act_target_spec (p : Permission) (users : List UserId) (u : UserId)
    (hwf : Cache.statesWellFormed p.bot.cache)
    (hact : p.act = some users) (hu : u ∈ users) :
    ∃ cid, p.bot.is_monitored cid = true ∧
      ∃ perm, p.bot.cache.permissionsInChannel u cid = some perm ∧
        perm.contains Permissions.CONNECT = false := by
unfold Permission.act at hact
split at hact
· cases hact
· simp only [Option.some.injEq] at hact
  subst hact
  cases hu
· split at hact
  · rename_i c hmode
    split at hact
    · cases hact
    · rename_i us2 hc
      simp only [Option.some.injEq] at hact
      subst hact
      obtain ⟨ch, hch, hk, hm, perm, hperm, hcc⟩ :=
        channel_target_spec ⟨p.bot, p.guild_id⟩ c none us2 u hwf.1 hc hu
      exact ⟨c, hm, perm, hperm, hcc⟩
    · simp only [Option.some.injEq] at hact
      subst hact
      cases hu
  · rename_i uid hmode
    split at hact
    · cases hact
    · rename_i b hus
      simp only [Option.some.injEq] at hact
      subst hact
      cases b with
      | false => simp at hu
      | true =>
        simp only [if_true] at hu
        have huid : u = uid := List.mem_singleton.mp hu
        subst huid
        exact user_target_spec ⟨p.bot, p.guild_id⟩ u hwf.2 hus
    · simp only [Option.some.injEq] at hact
      subst hact
      cases hu
  · rename_i rid hmode
    split at hact
    · cases hact
    · rename_i us2 hg
      simp only [Option.some.injEq] at hact
      subst hact
      have hsp : ∃ channels,
          p.bot.cache.guildChannels p.guild_id = some channels ∧
          Search.collectChannels ⟨p.bot, p.guild_id⟩ rid channels =
            some us2 := by
        unfold Search.guild at hg
        split at hg
        · simp at hg
        · rename_i channels hgc
          rw [Option.map_eq_some'] at hg
          rcases hg with ⟨a, ha, he⟩
          injection he with he2
          subst he2
          exact ⟨channels, hgc, ha⟩
      obtain ⟨channels, hgc, hcols⟩ := hsp
      rcases (Search.collectChannels_mem ⟨p.bot, p.guild_id⟩ rid channels
          us2 hcols u).mp hu with ⟨c, hcmem, usc, hcok, hu2⟩
      obtain ⟨ch, hch, hk, hm, perm, hperm, hcc⟩ :=
        channel_target_spec ⟨p.bot, p.guild_id⟩ c rid usc u hwf.1 hcok hu2
      exact ⟨c, hm, perm, hperm, hcc⟩
    · simp only [Option.some.injEq] at hact
      subst hact
      cases hu

/-- Helper: every candidate `prune::channel` assembles comes from a state of a
channel that passed the `is_monitored` gate (there is no kind gate on this
path) and is denied `CONNECT` by the oracle. -/
theorem pruneChannel_target_spec (bot : BotRef) (chan : ChannelId)
    (kick : CachedVoiceState → Bool) (users : List UserId) (u : UserId)
    (h : prune.channelUsers bot chan kick = some users) (hu : u ∈ users) :
    bot.is_monitored chan = true ∧
    ∃ st, st ∈ (bot.cache.cachedVoiceChannelStates chan).getD [] ∧
      st.user_id = u ∧ kick st = true ∧
      ∃ p, bot.cache.permissionsInChannel st.user_id st.channel_id = some p ∧
        p.contains Permissions.CONNECT = false := by
unfold prune.channelUsers at h
cases hm : bot.is_monitored chan with
| false =>
  rw [hm] at h
  simp only [Bool.false_eq_true, if_false, Option.some.injEq] at h
  subst h
  cases hu
| true =>
  rw [hm] at h
  simp only [if_true] at h
  refine ⟨rfl, ?_⟩
  cases hcs : bot.cache.cachedVoiceChannelStates chan with
  | none =>
    rw [hcs] at h
    simp only [Option.some.injEq] at h
    subst h
    cases hu
  | some states =>
    rw [hcs] at h
    rcases (prune.collectUsers_mem bot.cache kick states users h u).mp hu
      with ⟨st, hmem, hid, hk, hperm⟩
    unfold prune.is_permitted at hperm
    rw [Option.map_eq_some'] at hperm
    rcases hperm with ⟨p, hp, hpc⟩
    subst hid
    exact ⟨st, hmem, rfl, hk, p, hp, hpc⟩

/-- Helper: `prune::user` issues a removal exactly for a cached voice state
whose user the oracle denies `CONNECT`, with no monitored-channel gate. -/
theorem pruneUser_target_spec (bot : BotRef) (g : GuildId) (uid : UserId)
    (users : List UserId) (u : UserId)
    (h : prune.user bot g uid = some users) (hu : u ∈ users) :
    u = uid ∧ ∃ st, bot.cache.cachedVoiceState uid g = some st ∧
      ∃ p, bot.cache.permissionsInChannel st.user_id st.channel_id = some p ∧
        p.contains Permissions.CONNECT = false := by
unfold prune.user at h
split at h
· simp only [Option.some.injEq] at h
  subst h
  cases hu
· rename_i st hvs
  split at h
  · cases h
  · rename_i b hperm
    simp only [Option.some.injEq] at h
    subst h
    cases b with
    | true => simp at hu
    | false =>
      have huid : u = uid := List.mem_singleton.mp hu
      subst huid
      unfold prune.is_permitted at hperm
      rw [Option.map_eq_some'] at hperm
      rcases hperm with ⟨p, hp, hpc⟩
      exact ⟨rfl, st, hvs, p, hp, hpc⟩

/-- Helper: when no per-channel search panics, `collectChannels` succeeds. -/
theorem Search.collectChannels_total (s : Search) (rid : Option RoleId) :
    ∀ channels : List ChannelId,
    (∀ c ∈ channels, s.channel c rid ≠ none) →
    ∃ us, s.collectChannels rid channels = some us := by
intro channels
induction channels with
| nil => exact fun _ => ⟨[], rfl⟩
| cons c rest ih =>
  intro hnp
  obtain ⟨us0, hus0⟩ := ih (fun c2 h2 => hnp c2 (List.mem_cons_of_mem _ h2))
  cases hc : s.channel c rid with
  | none => exact absurd hc (hnp c (List.mem_cons_self _ _))
  | some r =>
    cases r with
    | ok us2 => exact ⟨us2 ++ us0, by simp [Search.collectChannels, hc, hus0]⟩
    | error e => exact ⟨us0, by simp [Search.collectChannels, hc, hus0]⟩

/-- C10: for every voice state passed to `Bot::permitted`, an absent channel
id or a failed effective-permission lookup makes `permitted` return `true`
(the user is treated as allowed to stay), so missing or failed permission data
on this path can never by itself cause a removal. -/
theorem clm10_permitted_fail_open (bot : BotRef) (state : VoiceState) :
    (state.channel_id = none → bot.permitted state = true) ∧
    (∀ cid, state.channel_id = some cid →
      bot.cache.permissionsInChannel state.user_id cid = none →
      bot.permitted state = true) := by
constructor
· intro h
  simp [BotRef.permitted, h]
· intro cid h ho
  simp [BotRef.permitted, h, ho]

/-- Witness for C10: a disconnected state and a state whose oracle lookup
fails are both treated as permitted on the example cache. -/
theorem clm10_permitted_fail_open_witness :
    BotRef.permitted exBot ⟨5, none, none⟩ = true ∧
    BotRef.permitted exBot ⟨77, some 10, none⟩ = true :=
⟨(clm10_permitted_fail_open exBot ⟨5, none, none⟩).1 rfl,
 (clm10_permitted_fail_open exBot ⟨77, some 10, none⟩).2 10 rfl (by decide)⟩

/-- C6: `remove` issues exactly one removal call per candidate (no candidate
is dropped or retried whatever the other outcomes are) and returns the count
of the calls that succeeded. -/
theorem clm6_remove_batch (users : List UserId) (outcome : UserId → Bool) :
    (BotRef.remove users outcome).calls.map Prod.fst = users ∧
    (BotRef.remove users outcome).successCount =
      ((BotRef.remove users outcome).calls.filter (fun cl => cl.2)).length := by
induction users with
| nil => exact ⟨rfl, rfl⟩
| cons u rest ih =>
  obtain ⟨ih1, ih2⟩ := ih
  constructor
  · simp [BotRef.remove, ih1]
  · cases h : outcome u <;> simp [BotRef.remove, h, ih2] <;> omega

/-- C3: the change gate of `process` is computed against the already-updated
cache (the cache update of `src/events.rs` line 18 runs before the guards),
so the two gated kinds — channel-overwrite updates and role permission-bitmask
updates — always compare the new value with itself and are always skipped.
The spec requires the decision to read the pre-update cached value. -/
theorem clm3_gate_reads_updated_cache (cache : Cache) (vc : UpdatedChannel)
    (g : GuildId) (r : UpdatedRole) :
    processScope cache (Event.ChannelUpdate vc) = none ∧
    processScope cache (Event.RoleUpdate g r) = none :=
⟨processScope_channelUpdate_none cache vc,
 processScope_roleUpdate_none cache g r⟩

/-- C5: a channel-overwrite update byte-equal to the cached overwrite list
never produces an enforcement scope (and leads to zero removals), and a role
deletion always produces the whole-guild scope. -/
theorem clm5_changegate_law (bot : BotRef) (vc : UpdatedChannel)
    (ch : CachedChannel) (g : GuildId) (rid : RoleId)
    (hch : bot.cache.guildChannel vc.id = some ch)
    (heq : ch.permission_overwrites = vc.permission_overwrites) :
    processScope bot.cache (Event.ChannelUpdate vc) = none ∧
    process bot (Event.ChannelUpdate vc) = some [] ∧
    processScope bot.cache (Event.RoleDelete g rid) = some (g, Mode.Role none) := by
refine ⟨processScope_channelUpdate_none _ _, ?_, processScope_roleDelete _ _ _⟩
simp [process, processScope_channelUpdate_none]

/-- Witness for C5 on the example cache: an overwrite update equal to channel
10's cached (empty) list is skipped, and a role deletion resolves to the
whole-guild scope. -/
theorem clm5_changegate_law_witness :
    (exBot.cache.guildChannel 10 = some ⟨ChannelType.guildVoice, []⟩ ∧
     ([] : List PermissionOverwrite) = []) ∧
    (processScope exBot.cache
        (Event.ChannelUpdate ⟨10, ChannelType.guildVoice, some 100, []⟩) =
      none ∧
     process exBot
        (Event.ChannelUpdate ⟨10, ChannelType.guildVoice, some 100, []⟩) =
      some [] ∧
     processScope exBot.cache (Event.RoleDelete 100 201) =
      some (100, Mode.Role none)) :=
⟨⟨rfl, rfl⟩,
 clm5_changegate_law exBot ⟨10, ChannelType.guildVoice, some 100, []⟩
   ⟨ChannelType.guildVoice, []⟩ 100 201 rfl rfl⟩

/-- C4: for a cached channel, `Search::channel` passes its two gates (it
returns neither the kind error nor the unmonitored error) exactly when the
channel kind is voice-capable and the bot's effective permission there
contains `MOVE_MEMBERS`. -/
theorem clm4_monitored_iff (s : Search) (c : ChannelId) (ch : CachedChannel)
    (rid : Option RoleId) (hch : s.bot.cache.guildChannel c = some ch) :
    (s.channel c rid ≠ some (Except.error Search.Error.NotAVoiceChannel) ∧
     s.channel c rid ≠ some (Except.error Search.Error.Unmonitored)) ↔
    (MONITORED_CHANNEL_TYPES ch.kind = true ∧
     ∃ p, s.bot.cache.permissionsInChannel s.bot.id c = some p ∧
       p.contains Permissions.MOVE_MEMBERS = true) := by
have hmon : s.bot.is_monitored c = true ↔
    ∃ p, s.bot.cache.permissionsInChannel s.bot.id c = some p ∧
      p.contains Permissions.MOVE_MEMBERS = true := by
  cases ho : s.bot.cache.permissionsInChannel s.bot.id c <;>
    simp [BotRef.is_monitored, BotRef.monitored, ho]
cases hk : MONITORED_CHANNEL_TYPES ch.kind with
| false =>
  have hres : s.channel c rid =
      some (Except.error Search.Error.NotAVoiceChannel) := by
    simp [Search.channel, hch, hk]
  constructor
  · rintro ⟨h1, -⟩
    exact absurd hres h1
  · rintro ⟨h1, -⟩
    cases h1
| true =>
  cases hm : s.bot.is_monitored c with
  | false =>
    have hres : s.channel c rid =
        some (Except.error Search.Error.Unmonitored) := by
      simp [Search.channel, hch, hk, hm]
    constructor
    · rintro ⟨-, h2⟩
      exact absurd hres h2
    · rintro ⟨-, hex⟩
      have h3 := hmon.mpr hex
      rw [hm] at h3
      cases h3
  | true =>
    have hchan : ∀ e, s.channel c rid ≠ some (Except.error e) := by
      intro e
      cases hcol : s.collectUnpermitted
          (((s.bot.cache.voice_channel_states c).getD []).filter
            (s.roleFilter rid)) <;>
        simp [Search.channel, hch, hk, hm, hcol]
    exact iff_of_true ⟨hchan _, hchan _⟩ ⟨rfl, hmon.mp hm⟩

/-- Witness for C4 on the example cache: channel 10 is cached, voice-capable
and monitored, and the equivalence holds there. -/
theorem clm4_monitored_iff_witness :
    exSearch.bot.cache.guildChannel 10 = some ⟨ChannelType.guildVoice, []⟩ ∧
    ((exSearch.channel 10 none ≠
        some (Except.error Search.Error.NotAVoiceChannel) ∧
      exSearch.channel 10 none ≠
        some (Except.error Search.Error.Unmonitored)) ↔
     (MONITORED_CHANNEL_TYPES ChannelType.guildVoice = true ∧
      ∃ p, exSearch.bot.cache.permissionsInChannel exSearch.bot.id 10 =
          some p ∧
        p.contains Permissions.MOVE_MEMBERS = true)) :=
⟨rfl, clm4_monitored_iff exSearch 10 ⟨ChannelType.guildVoice, []⟩ none rfl⟩

/-- Counterexample for C2: with the bot's member record absent from cache,
`Permission::is_disabled` does not return a verdict at all — it panics
(`expect("cache contains bot")`, modelled as `none`) — so the enable check
does not "return false". -/
theorem clm2_counterexample :
    Permission.is_disabled ⟨exBotNoMember, 100, Mode.Channel 10⟩ = none ∧
    Permission.is_disabled ⟨exBotNoMember, 100, Mode.Channel 10⟩ ≠ some true ∧
    Permission.is_disabled ⟨exBotNoMember, 100, Mode.Channel 10⟩ ≠ some false :=
⟨rfl, by decide, by decide⟩

/-- C2 (amended): when the bot's member record is absent from cache, the
opt-out check panics instead of returning a verdict, and the whole
auto-triggered `Permission::act` panics with it — so the sweep still performs
no removals, but by task abort rather than by a `false` return. -/
theorem clm2_amended_fail_closed_by_panic (p : Permission)
    (h : p.bot.cache.member p.guild_id p.bot.id = none) :
    p.is_disabled = none ∧ p.act = none := by
have h1 : p.is_disabled = none := by
  simp [Permission.is_disabled, h]
refine ⟨h1, ?_⟩
simp [Permission.act, h1]

/-- Witness for C2 on the member-less example cache. -/
theorem clm2_amended_fail_closed_by_panic_witness :
    exBotNoMember.cache.member 100 exBotNoMember.id = none ∧
    (Permission.is_disabled ⟨exBotNoMember, 100, Mode.Channel 10⟩ = none ∧
     Permission.act ⟨exBotNoMember, 100, Mode.Channel 10⟩ = none) :=
⟨rfl, clm2_amended_fail_closed_by_panic ⟨exBotNoMember, 100, Mode.Channel 10⟩ rfl⟩

/-- C9: with the guild's channel list cached and no per-channel panic,
`Search::guild` always succeeds and returns exactly the union of the
successful per-channel searches — channels whose search errors (unmonitored,
not a voice channel) are silently dropped, never propagated. -/
theorem clm9_guild_union (s : Search) (rid : Option RoleId)
    (channels : List ChannelId)
    (hch : s.bot.cache.guildChannels s.guild_id = some channels)
    (hnp : ∀ c ∈ channels, s.channel c rid ≠ none) :
    ∃ us, s.guild rid = some (Except.ok us) ∧
      ∀ u, u ∈ us ↔ ∃ c ∈ channels, ∃ usc,
        s.channel c rid = some (Except.ok usc) ∧ u ∈ usc := by
obtain ⟨us, hus⟩ := s.collectChannels_total rid channels hnp
refine ⟨us, ?_, ?_⟩
· simp [Search.guild, hch, hus]
· intro u
  simpa using s.collectChannels_mem rid channels us hus u

/-- Witness for C9: guild 100's sweep succeeds although channel 11 is not a
voice channel and channel 12 is unmonitored. -/
theorem clm9_guild_union_witness :
    exSearch.bot.cache.guildChannels exSearch.guild_id = some [10, 11, 12] ∧
    (∀ c ∈ [(10 : ChannelId), 11, 12], exSearch.channel c none ≠ none) ∧
    (∃ us, exSearch.guild none = some (Except.ok us) ∧
      ∀ u, u ∈ us ↔ ∃ c ∈ [(10 : ChannelId), 11, 12], ∃ usc,
        exSearch.channel c none = some (Except.ok usc) ∧ u ∈ usc) :=
⟨rfl, by decide, clm9_guild_union exSearch none [10, 11, 12] rfl (by decide)⟩

/-- Counterexample for C8: in monitored voice channel 10, user 8 is denied
`CONNECT` but carries no member data, so under the role filter 201 the search
still returns user 8 — the result is not restricted to recorded holders of
the filter role. -/
theorem clm8_counterexample :
    exSearch.channel 10 (some 201) = some (Except.ok [5, 8]) ∧
    st8 ∈ (exSearch.bot.cache.voice_channel_states 10).getD [] ∧
    st8.user_id = 8 ∧ st8.member = none ∧
    ¬ ∃ mem, st8.member = some mem ∧ (201 : RoleId) ∈ mem.roles := by
refine ⟨rfl, by decide, rfl, rfl, ?_⟩
rintro ⟨mem, h, -⟩
rw [show st8.member = none from rfl] at h
cases h

/-- C8 (amended): `Search::channel` validates the kind first and monitoredness
second (returning the corresponding errors before any search), treats a role
filter equal to the guild's default role as no restriction, never filters out
a state without member data, and otherwise returns exactly the connected
users denied `CONNECT` among the states passing the filter. -/
theorem clm8_amended_channel_spec (s : Search) (c : ChannelId)
    (rid : Option RoleId) :
    (s.bot.cache.guildChannel c = none →
      s.channel c rid =
        some (Except.error (Search.Error.Internal "channel not in cache"))) ∧
    (∀ ch, s.bot.cache.guildChannel c = some ch →
      MONITORED_CHANNEL_TYPES ch.kind = false →
      s.channel c rid = some (Except.error Search.Error.NotAVoiceChannel)) ∧
    (∀ ch, s.bot.cache.guildChannel c = some ch →
      MONITORED_CHANNEL_TYPES ch.kind = true →
      s.bot.is_monitored c = false →
      s.channel c rid = some (Except.error Search.Error.Unmonitored)) ∧
    (∀ st : VoiceState, st.member = none → s.roleFilter rid st = true) ∧
    (∀ (st : VoiceState) (mem : CachedMember) (r2 : RoleId),
      st.member = some mem → rid = some r2 →
      (s.roleFilter rid st = true ↔ (r2 = s.guild_id ∨ r2 ∈ mem.roles))) ∧
    (∀ us, s.channel c rid = some (Except.ok us) →
      ∀ u, u ∈ us ↔
        ∃ st, st ∈ (s.bot.cache.voice_channel_states c).getD [] ∧
          st.user_id = u ∧ s.roleFilter rid st = true ∧
          ∃ cid, st.channel_id = some cid ∧
            ∃ p, s.bot.cache.permissionsInChannel u cid = some p ∧
              p.contains Permissions.CONNECT = false) := by
refine ⟨?_, ?_, ?_, ?_, ?_, ?_⟩
· intro h
  simp [Search.channel, h]
· intro ch h hk
  simp [Search.channel, h, hk]
· intro ch h hk hm
  simp [Search.channel, h, hk, hm]
· intro st h
  cases rid <;> simp [Search.roleFilter, h]
· intro st mem r2 h hr
  subst hr
  simp [Search.roleFilter, h, List.elem_iff]
· intro us hus u
  obtain ⟨ch, hch, hk, hm, hcol⟩ := Search.channel_ok_spec s c rid us hus
  rw [s.collectUnpermitted_mem _ us hcol u]
  constructor
  · rintro ⟨st, hmem, rfl, hperm⟩
    rw [List.mem_filter] at hmem
    obtain ⟨cid, hcid, p, hp, hc2⟩ := (s.is_permitted_false_iff st).mp hperm
    exact ⟨st, hmem.1, rfl, hmem.2, cid, hcid, p, hp, hc2⟩
  · rintro ⟨st, hmem, rfl, hfilt, cid, hcid, p, hp, hc2⟩
    exact ⟨st, List.mem_filter.mpr ⟨hmem, hfilt⟩, rfl,
      (s.is_permitted_false_iff st).mpr ⟨cid, hcid, p, hp, hc2⟩⟩

/-- Witness for C8: the characterization applied to channel 10 under role
filter 201 on the example cache. -/
theorem clm8_amended_channel_spec_witness :
    exSearch.channel 10 (some 201) = some (Except.ok [5, 8]) ∧
    ((5 : UserId) ∈ [(5 : UserId), 8] ↔
      ∃ st, st ∈ (exSearch.bot.cache.voice_channel_states 10).getD [] ∧
        st.user_id = 5 ∧ exSearch.roleFilter (some 201) st = true ∧
        ∃ cid, st.channel_id = some cid ∧
          ∃ p, exSearch.bot.cache.permissionsInChannel 5 cid = some p ∧
            p.contains Permissions.CONNECT = false) :=
⟨rfl, (clm8_amended_channel_spec exSearch 10 (some 201)).2.2.2.2.2 [5, 8] rfl 5⟩

/-- C7: every role-scoped trigger that passes the change gate is a role
deletion — role permission-bitmask updates are always gated away (their guard
reads the already-updated cache) — and a role deletion resolves to the
whole-guild sweep with no role filter; a `none` filter restricts nothing. -/
theorem clm7_role_scope_unfiltered :
    (∀ (cache : Cache) (g : GuildId) (r : UpdatedRole),
      processScope cache (Event.RoleUpdate g r) = none) ∧
    (∀ (cache : Cache) (g : GuildId) (rid : RoleId),
      processScope cache (Event.RoleDelete g rid) = some (g, Mode.Role none)) ∧
    (∀ (s : Search) (st : VoiceState), s.roleFilter none st = true) :=
⟨processScope_roleUpdate_none, processScope_roleDelete,
 fun s st => by obtain ⟨uid, cid, m⟩ := st; cases m <;> rfl⟩

/-- Counterexample for C1: user 7 sits in channel 12, which is not monitored
(the bot lacks `MOVE_MEMBERS` there), yet the member-scoped auto path
`prune::user` still issues a removal for user 7 because the oracle denies the
user `CONNECT`. -/
theorem clm1_counterexample :
    prune.user exBot 100 7 = some [7] ∧
    exBot.cache.cachedVoiceState 7 100 = some ⟨7, 12⟩ ∧
    exBot.is_monitored 12 = false :=
⟨rfl, rfl, by decide⟩

/-- C1 (amended): every removal issued through the search-based paths
(`Search::channel` directly or through `Permission::act`, `Search::user`
through the member mode) targets a user the oracle denies `CONNECT`, in a
channel that passed the monitored gate — with the voice-capable-kind gate on
the channel paths only; the `prune::channel` path checks the `MOVE_MEMBERS`
gate but no channel kind; the `prune::user` member path checks only the
`CONNECT` denial, with no monitored gate at all. -/
theorem clm1_amended_removal_targets :
    (∀ (s : Search) (c : ChannelId) (rid : Option RoleId)
       (us : List UserId) (u : UserId),
      Cache.statesWellFormed s.bot.cache →
      s.channel c rid = some (Except.ok us) → u ∈ us →
      ∃ ch, s.bot.cache.guildChannel c = some ch ∧
        MONITORED_CHANNEL_TYPES ch.kind = true ∧
        s.bot.is_monitored c = true ∧
        ∃ p, s.bot.cache.permissionsInChannel u c = some p ∧
          p.contains Permissions.CONNECT = false) ∧
    (∀ (p : Permission) (users : List UserId) (u : UserId),
      Cache.statesWellFormed p.bot.cache →
      p.act = some users → u ∈ users →
      ∃ cid, p.bot.is_monitored cid = true ∧
        ∃ perm, p.bot.cache.permissionsInChannel u cid = some perm ∧
          perm.contains Permissions.CONNECT = false) ∧
    (∀ (bot : BotRef) (chan : ChannelId) (kick : CachedVoiceState → Bool)
       (users : List UserId) (u : UserId),
      prune.channelUsers bot chan kick = some users → u ∈ users →
      bot.is_monitored chan = true ∧
      ∃ st, st ∈ (bot.cache.cachedVoiceChannelStates chan).getD [] ∧
        st.user_id = u ∧ kick st = true ∧
        ∃ p, bot.cache.permissionsInChannel st.user_id st.channel_id =
            some p ∧
          p.contains Permissions.CONNECT = false) ∧
    (∀ (bot : BotRef) (g : GuildId) (uid : UserId)
       (users : List UserId) (u : UserId),
      prune.user bot g uid = some users → u ∈ users →
      u = uid ∧ ∃ st, bot.cache.cachedVoiceState uid g = some st ∧
        ∃ p, bot.cache.permissionsInChannel st.user_id st.channel_id =
            some p ∧
          p.contains Permissions.CONNECT = false) :=
⟨fun s c rid us u hwf h hu => channel_target_spec s c rid us u hwf.1 h hu,
 fun p users u hwf h hu => act_target_spec p users u hwf h hu,
 fun bot chan kick users u h hu =>
   pruneChannel_target_spec bot chan kick users u h hu,
 fun bot g uid users u h hu => pruneUser_target_spec bot g uid users u h hu⟩

/-- Witness for C1: on the example cache the channel-scoped `Permission::act`
removes user 5, and the amended invariant exhibits the monitored channel and
the denying oracle verdict. -/
theorem clm1_amended_removal_targets_witness :
    Cache.statesWellFormed exCache ∧
    Permission.act ⟨exBot, 100, Mode.Channel 10⟩ = some [5, 8, 9] ∧
    (5 : UserId) ∈ [(5 : UserId), 8, 9] ∧
    (∃ cid, exBot.is_monitored cid = true ∧
      ∃ perm, exBot.cache.permissionsInChannel 5 cid = some perm ∧
        perm.contains Permissions.CONNECT = false) :=
⟨exCache_wf, rfl, by decide,
 clm1_amended_removal_targets.2.1 ⟨exBot, 100, Mode.Channel 10⟩ [5, 8, 9] 5
   exCache_wf rfl (by decide)⟩
